import Mathlib

/-!
Shallow embedding of the `meta-assets` pallet
(src/pallets/meta-assets/src/lib.rs) and proofs about its four
dispatchables: `add_asset`, `transfer_asset`, `update_meta`,
`register_admin`.

Modelling conventions:
- `AccountId` (the runtime's abstract account type) and `HashT`
  (`T::Hash`, a fixed-size digest) are both modelled as `Nat`; only
  decidable equality of these values matters to the pallet logic.
- `Vec<u8>` is modelled as `List Byte` with `Byte := Nat`; only
  lengths and equality of the byte sequences matter.
- Both storage maps are total functions into `Option`:
  `AssetsStore : T::Hash → Option (AssetItem)` and
  `MetadataStore : T::Hash → T::AccountId → Option (Option (Vec<u8>))`,
  where the outer `Option` is map-key presence and the inner
  `Option (List Byte)` is the stored value type `Option<Vec<u8>>`.
- `T::Hashing::hash_of` is an external deterministic function, passed
  explicitly as `hashOf : AssetItem → HashT`.
- `ensure_signed` (origin authentication) is the external
  authentication collaborator; the embedding takes the already
  authenticated `owner : AccountId` directly.
- Each dispatchable maps the pre-state and its arguments to
  `(post-state, emitted events, optional error)`; an `ensure!`/`?`
  early return yields the state as it stood at that point (no insert
  statement precedes any error return in the source).
-/

abbrev Byte := Nat

abbrev AccountId := Nat

abbrev HashT := Nat

/-- The stored asset record `AssetItem<T> { name: Vec<u8>, owner: AccountId }`. -/
structure AssetItem where
  name : List Byte
  owner : AccountId
deriving DecidableEq, Repr

/-- Error enum of the pallet (`#[pallet::error]`). -/
inductive Error where
  | NoneValue
  | StorageOverflow
  | ShortNameProvided
  | LongNameProvided
  | InvalidOwner
  | InvalidHash
deriving DecidableEq, Repr

/-- Event enum of the pallet (`#[pallet::event]`): `AssetWasStored(Vec<u8>, T::AccountId)`. -/
inductive Event where
  | AssetWasStored (name : List Byte) (owner : AccountId)
deriving DecidableEq, Repr

/-- The pallet's storage: `AssetsStore` (a `StorageMap` keyed by `T::Hash`)
and `MetadataStore` (a `StorageDoubleMap` keyed by `T::Hash` and
`T::AccountId`, holding values of type `Option<Vec<u8>>`). -/
structure RegistryState where
  assets : HashT → Option AssetItem
  metadata : HashT → AccountId → Option (Option (List Byte))

/-- The genesis storage: both maps empty. -/
def emptyState : RegistryState :=
  { assets := fun _ => none, metadata := fun _ _ => none }

/-- `StorageMap::insert`: overwrite the value at one key, leave the rest. -/
def assetsInsert (m : HashT → Option AssetItem) (k : HashT) (v : AssetItem) :
    HashT → Option AssetItem :=
  fun h => if h = k then some v else m h

/-- `StorageDoubleMap::insert`: overwrite the value at one key pair, leave the rest. -/
def metaInsert (m : HashT → AccountId → Option (Option (List Byte)))
    (k : HashT) (acc : AccountId) (v : Option (List Byte)) :
    HashT → AccountId → Option (Option (List Byte)) :=
  fun h a => if h = k then (if a = acc then some v else m h a) else m h a

/-- Result of one dispatchable call: post-state, deposited events, and
the dispatch error if the call failed. -/
abbrev CallResult := RegistryState × List Event × Option Error

/-- Dispatchable `add_asset(origin, asset_name, meta)` (lib.rs lines 64-87):
checks `asset_name.len() > 3` (else `ShortNameProvided`) and
`asset_name.len() < 32` (else `LongNameProvided`), builds
`AssetItem { name, owner }`, hashes it, inserts it into `AssetsStore` at
the hash, inserts `meta` into `MetadataStore` at `(hash, owner)`, and
deposits `AssetWasStored(asset_name, owner)`. -/
def add_asset (hashOf : AssetItem → HashT) (st : RegistryState)
    (owner : AccountId) (asset_name : List Byte) (meta : Option (List Byte)) :
    CallResult :=
  if asset_name.length > 3 then
    if asset_name.length < 32 then
      let asset : AssetItem := { name := asset_name, owner := owner }
      let asset_hash := hashOf asset
      ({ assets := assetsInsert st.assets asset_hash asset,
         metadata := metaInsert st.metadata asset_hash owner meta },
       [Event.AssetWasStored asset_name owner], none)
    else (st, [], some Error.LongNameProvided)
  else (st, [], some Error.ShortNameProvided)

/-- Dispatchable `transfer_asset(origin, hash, destination)` (lib.rs lines
90-106): looks up `hash` in `AssetsStore` (else `InvalidHash`), checks
`asset.owner == owner` (else `InvalidOwner`), and re-inserts
`AssetItem { name: asset.name, owner: destination }` at `hash`. -/
def transfer_asset (st : RegistryState) (owner : AccountId) (hash : HashT)
    (destination : AccountId) : CallResult :=
  match st.assets hash with
  | none => (st, [], some Error.InvalidHash)
  | some asset =>
    if asset.owner = owner then
      ({ st with
          assets := assetsInsert st.assets hash
            { name := asset.name, owner := destination } }, [], none)
    else (st, [], some Error.InvalidOwner)

/-- Dispatchable `update_meta(origin, hash, meta)` (lib.rs lines 110-125):
checks `MetadataStore::contains_key(hash, owner)` (else `InvalidOwner`)
and overwrites `MetadataStore[(hash, owner)]` with `meta`. -/
def update_meta (st : RegistryState) (owner : AccountId) (hash : HashT)
    (meta : Option (List Byte)) : CallResult :=
  if (st.metadata hash owner).isSome then
    ({ st with metadata := metaInsert st.metadata hash owner meta }, [], none)
  else (st, [], some Error.InvalidOwner)

/-- Dispatchable `register_admin(origin, hash, admin_address)` (lib.rs lines
129-143): looks up `hash` in `AssetsStore` (else `InvalidHash`), checks
`asset.owner == owner` (else `InvalidOwner`), and inserts
`MetadataStore[(hash, admin_address)] = None`. -/
def register_admin (st : RegistryState) (owner : AccountId) (hash : HashT)
    (admin_address : AccountId) : CallResult :=
  match st.assets hash with
  | none => (st, [], some Error.InvalidHash)
  | some asset =>
    if asset.owner = owner then
      ({ st with metadata := metaInsert st.metadata hash admin_address none },
       [], none)
    else (st, [], some Error.InvalidOwner)

/-- One extrinsic of the pallet, with its authenticated caller. -/
inductive Call where
  | addAsset (caller : AccountId) (name : List Byte) (meta : Option (List Byte))
  | transferAsset (caller : AccountId) (hash : HashT) (dest : AccountId)
  | updateMeta (caller : AccountId) (hash : HashT) (meta : Option (List Byte))
  | registerAdmin (caller : AccountId) (hash : HashT) (admin : AccountId)
deriving DecidableEq, Repr

/-- Dispatch one call against the current storage. -/
def dispatch (hashOf : AssetItem → HashT) (st : RegistryState) : Call → CallResult
  | Call.addAsset caller n m => add_asset hashOf st caller n m
  | Call.transferAsset caller h d => transfer_asset st caller h d
  | Call.updateMeta caller h m => update_meta st caller h m
  | Call.registerAdmin caller h a => register_admin st caller h a

/-- Run a sequence of calls, threading the storage state. -/
def runCalls (hashOf : AssetItem → HashT) (st : RegistryState) : List Call → RegistryState
  | [] => st
  | c :: cs => runCalls hashOf (dispatch hashOf st c).1 cs

/-- Coupling invariant of the two maps: every identifier keying a
MetadataStore entry also keys an AssetsStore entry. -/
def MetadataCoupled (st : RegistryState) : Prop :=
  ∀ h a, (st.metadata h a).isSome → (st.assets h).isSome

/-- A concrete deterministic digest function standing in for
`T::Hashing::hash_of` in witness instantiations. -/
def demoHash (a : AssetItem) : HashT :=
  a.name.foldl (fun acc b => acc * 257 + (b + 1)) (a.owner + 1)

/-- The identifier under which a successful `add_asset(name, caller)` call
stores its record: the hash of the constructed record. -/
def derivedId (hashOf : AssetItem → HashT) (name : List Byte)
    (owner : AccountId) : HashT :=
  hashOf { name := name, owner := owner }

/-- Demo state used by witnesses: the result of one successful
`add_asset` by account 0 with name `[1,2,3,4]` and no metadata. -/
def st0demo : RegistryState :=
  (add_asset demoHash emptyState 0 [1, 2, 3, 4] none).1

/-- The identifier of the demo asset in `st0demo`. -/
def id0demo : HashT :=
  derivedId demoHash [1, 2, 3, 4] 0

/-! Helper lemmas about the two insert primitives. -/

theorem assetsInsert_same (m : HashT → Option AssetItem) (k : HashT)
    (v : AssetItem) : assetsInsert m k v k = some v := by
  simp [assetsInsert]

theorem assetsInsert_other (m : HashT → Option AssetItem) (k h : HashT)
    (v : AssetItem) (hne : h ≠ k) : assetsInsert m k v h = m h := by
  simp [assetsInsert, hne]

theorem assetsInsert_isSome (m : HashT → Option AssetItem) (k h : HashT)
    (v : AssetItem) (hs : (m h).isSome) : (assetsInsert m k v h).isSome := by
  by_cases hk : h = k <;> simp [assetsInsert, hk, hs]

theorem metaInsert_same (m : HashT → AccountId → Option (Option (List Byte)))
    (k : HashT) (acc : AccountId) (v : Option (List Byte)) :
    metaInsert m k acc v k acc = some v := by
  simp [metaInsert]

theorem metaInsert_other (m : HashT → AccountId → Option (Option (List Byte)))
    (k : HashT) (acc : AccountId) (v : Option (List Byte)) (h : HashT)
    (a : AccountId) (hne : ¬ (h = k ∧ a = acc)) : metaInsert m k acc v h a = m h a := by
  by_cases hk : h = k
  · subst hk
    have hane : a ≠ acc := fun haeq => hne ⟨rfl, haeq⟩
    simp [metaInsert, hane]
  · simp [metaInsert, hk]

/-- C1: For every authenticated caller and every name of byte length strictly
between 3 and 32, AddAsset succeeds with the derived AssetIdentifier
`hashOf {name, owner := caller}`: it constructs the record
`{name, owner := caller}`, inserts it into AssetsStore at that identifier
(the insert overwriting any prior record there), inserts
`MetadataStore[(id, caller)] = metadata`, and emits an
`AssetWasStored(name, caller)` event. -/
theorem addAsset_ok (hashOf : AssetItem → HashT) (st : RegistryState)
    (caller : AccountId) (name : List Byte) (meta : Option (List Byte))
    (hshort : 3 < name.length) (hlong : name.length < 32) :
    add_asset hashOf st caller name meta =
      ({ assets := assetsInsert st.assets (derivedId hashOf name caller)
           { name := name, owner := caller },
         metadata := metaInsert st.metadata (derivedId hashOf name caller)
           caller meta },
       [Event.AssetWasStored name caller], none)
    ∧ (add_asset hashOf st caller name meta).1.assets
        (derivedId hashOf name caller) = some { name := name, owner := caller }
    ∧ (add_asset hashOf st caller name meta).1.metadata
        (derivedId hashOf name caller) caller = some meta := by
  refine ⟨?_, ?_, ?_⟩ <;>
    simp [add_asset, derivedId, hshort, hlong, assetsInsert_same, metaInsert_same]

/-- C1 witness: a concrete successful AddAsset call from the empty state. -/
theorem addAsset_ok_witness :
    add_asset demoHash emptyState 0 [1, 2, 3, 4] none =
      ({ assets := assetsInsert emptyState.assets (derivedId demoHash [1, 2, 3, 4] 0)
           { name := [1, 2, 3, 4], owner := 0 },
         metadata := metaInsert emptyState.metadata (derivedId demoHash [1, 2, 3, 4] 0)
           0 none },
       [Event.AssetWasStored [1, 2, 3, 4] 0], none)
    ∧ (add_asset demoHash emptyState 0 [1, 2, 3, 4] none).1.assets
        (derivedId demoHash [1, 2, 3, 4] 0) = some { name := [1, 2, 3, 4], owner := 0 }
    ∧ (add_asset demoHash emptyState 0 [1, 2, 3, 4] none).1.metadata
        (derivedId demoHash [1, 2, 3, 4] 0) 0 = some none :=
  addAsset_ok demoHash emptyState 0 [1, 2, 3, 4] none (by decide) (by decide)

/-- C2: AddAsset fails with ShortNameProvided exactly when the name length is
at most 3, fails with LongNameProvided exactly when the length is at least
32, succeeds exactly when the length lies strictly between 3 and 32, and
every failing AddAsset call leaves the storage exactly as before with no
event deposited. -/
theorem addAsset_length_bounds (hashOf : AssetItem → HashT) (st : RegistryState)
    (owner : AccountId) (name : List Byte) (meta : Option (List Byte)) :
    ((add_asset hashOf st owner name meta).2.2 = some Error.ShortNameProvided
      ↔ name.length ≤ 3)
    ∧ ((add_asset hashOf st owner name meta).2.2 = some Error.LongNameProvided
      ↔ 32 ≤ name.length)
    ∧ ((add_asset hashOf st owner name meta).2.2 = none
      ↔ (3 < name.length ∧ name.length < 32))
    ∧ (∀ e, (add_asset hashOf st owner name meta).2.2 = some e →
        (add_asset hashOf st owner name meta).1 = st
        ∧ (add_asset hashOf st owner name meta).2.1 = []) := by
  by_cases h3 : name.length > 3 <;> by_cases h32 : name.length < 32 <;>
    simp [add_asset, h3, h32] <;> omega

/-- C2 witness: a 3-byte name fails with ShortNameProvided (leaving the state
untouched), a 32-byte name fails with LongNameProvided, a 4-byte and a
31-byte name succeed. -/
theorem addAsset_length_bounds_witness :
    (add_asset demoHash emptyState 0 [7, 7, 7] none).2.2
      = some Error.ShortNameProvided
    ∧ (add_asset demoHash emptyState 0 (List.replicate 32 7) none).2.2
      = some Error.LongNameProvided
    ∧ (add_asset demoHash emptyState 0 [1, 2, 3, 4] none).2.2 = none
    ∧ (add_asset demoHash emptyState 0 (List.replicate 31 7) none).2.2 = none
    ∧ (add_asset demoHash emptyState 0 [7, 7, 7] none).1 = emptyState
    ∧ (add_asset demoHash emptyState 0 [7, 7, 7] none).2.1 = [] :=
  ⟨(addAsset_length_bounds demoHash emptyState 0 [7, 7, 7] none).1.mpr (by decide),
   (addAsset_length_bounds demoHash emptyState 0 (List.replicate 32 7) none).2.1.mpr
     (by simp),
   (addAsset_length_bounds demoHash emptyState 0 [1, 2, 3, 4] none).2.2.1.mpr
     (by decide),
   (addAsset_length_bounds demoHash emptyState 0 (List.replicate 31 7) none).2.2.1.mpr
     (by simp),
   ((addAsset_length_bounds demoHash emptyState 0 [7, 7, 7] none).2.2.2
     Error.ShortNameProvided
     ((addAsset_length_bounds demoHash emptyState 0 [7, 7, 7] none).1.mpr
       (by decide))).1,
   ((addAsset_length_bounds demoHash emptyState 0 [7, 7, 7] none).2.2.2
     Error.ShortNameProvided
     ((addAsset_length_bounds demoHash emptyState 0 [7, 7, 7] none).1.mpr
       (by decide))).2⟩

/-- C3: TransferAsset fails with InvalidHash when the identifier has no
AssetsStore entry, fails with InvalidOwner when the stored record's owner
differs from the caller, and otherwise succeeds, replacing the AssetsStore
entry at the identifier with a record of the same name whose owner is the
destination; failing calls leave the state untouched and no call emits an
event. -/
theorem transferAsset_cases (st : RegistryState) (caller dest : AccountId)
    (id : HashT) :
    (st.assets id = none →
      transfer_asset st caller id dest = (st, [], some Error.InvalidHash))
    ∧ (∀ a, st.assets id = some a → a.owner ≠ caller →
        transfer_asset st caller id dest = (st, [], some Error.InvalidOwner))
    ∧ (∀ a, st.assets id = some a → a.owner = caller →
        transfer_asset st caller id dest =
          ({ st with
              assets := assetsInsert st.assets id { name := a.name, owner := dest } },
           [], none)) := by
  refine ⟨fun hnone => ?_, fun a ha hne => ?_, fun a ha hown => ?_⟩ <;>
    simp [transfer_asset, *]

/-- C3 witness: a missing identifier yields InvalidHash, a non-owner caller
yields InvalidOwner, and the owner's transfer rewrites the record with the
new owner. -/
theorem transferAsset_cases_witness :
    transfer_asset emptyState 0 99 1 = (emptyState, [], some Error.InvalidHash)
    ∧ transfer_asset st0demo 1 id0demo 2 = (st0demo, [], some Error.InvalidOwner)
    ∧ transfer_asset st0demo 0 id0demo 2 =
        ({ st0demo with
            assets := assetsInsert st0demo.assets id0demo { name := [1, 2, 3, 4], owner := 2 } },
         [], none) :=
  ⟨(transferAsset_cases emptyState 0 1 99).1 rfl,
   (transferAsset_cases st0demo 1 2 id0demo).2.1
     { name := [1, 2, 3, 4], owner := 0 } (by decide) (by decide),
   (transferAsset_cases st0demo 0 2 id0demo).2.2
     { name := [1, 2, 3, 4], owner := 0 } (by decide) rfl⟩

/-- C4: UpdateMetadata succeeds exactly when MetadataStore has an entry at
key `(id, caller)` — presence, not the stored value, is what is checked, so
any account holding a slot may call it regardless of current AssetsStore
ownership — and on success it overwrites `MetadataStore[(id, caller)]` with
the new value (possibly `none`); without such an entry it fails with
InvalidOwner and leaves the state untouched. -/
theorem updateMeta_cases (st : RegistryState) (caller : AccountId) (id : HashT)
    (m : Option (List Byte)) :
    ((update_meta st caller id m).2.2 = none ↔ (st.metadata id caller).isSome)
    ∧ ((st.metadata id caller).isSome →
        update_meta st caller id m =
          ({ st with metadata := metaInsert st.metadata id caller m }, [], none)
        ∧ (update_meta st caller id m).1.metadata id caller = some m)
    ∧ (¬ (st.metadata id caller).isSome →
        update_meta st caller id m = (st, [], some Error.InvalidOwner)) := by
  by_cases hpres : (st.metadata id caller).isSome <;>
    simp [update_meta, metaInsert_same, hpres]

/-- C4 witness: the creator's slot from `add_asset` lets the creator update
metadata (to a `some` value), while an account with no slot fails with
InvalidOwner. -/
theorem updateMeta_cases_witness :
    (update_meta st0demo 0 id0demo (some [9])).2.2 = none
    ∧ (update_meta st0demo 0 id0demo (some [9])).1.metadata id0demo 0
        = some (some [9])
    ∧ update_meta st0demo 5 id0demo (some [9])
        = (st0demo, [], some Error.InvalidOwner) :=
  ⟨(updateMeta_cases st0demo 0 id0demo (some [9])).1.mpr (by decide),
   ((updateMeta_cases st0demo 0 id0demo (some [9])).2.1 (by decide)).2,
   (updateMeta_cases st0demo 5 id0demo (some [9])).2.2 (by decide)⟩

/-- C5: RegisterAdmin fails with InvalidHash when the identifier is not in
AssetsStore and with InvalidOwner when the stored record's owner is not the
caller; on success it sets `MetadataStore[(id, admin)] = None` (overwriting
any prior entry for that pair, whatever it was), after which
UpdateMetadata by the admin on that identifier succeeds for every value. -/
theorem registerAdmin_cases (st : RegistryState) (caller admin : AccountId)
    (id : HashT) :
    (st.assets id = none →
      register_admin st caller id admin = (st, [], some Error.InvalidHash))
    ∧ (∀ a, st.assets id = some a → a.owner ≠ caller →
        register_admin st caller id admin = (st, [], some Error.InvalidOwner))
    ∧ (∀ a, st.assets id = some a → a.owner = caller →
        register_admin st caller id admin =
          ({ st with metadata := metaInsert st.metadata id admin none }, [], none)
        ∧ (register_admin st caller id admin).1.metadata id admin = some none
        ∧ (∀ m, (update_meta (register_admin st caller id admin).1 admin id m).2.2
            = none)) := by
  refine ⟨fun hnone => ?_, fun a ha hne => ?_, fun a ha hown => ⟨?_, ?_, fun m => ?_⟩⟩ <;>
    simp [register_admin, update_meta, metaInsert_same, *]

/-- C5 witness: registering account 3 as admin on the demo asset succeeds,
stores an empty slot for 3, and a subsequent update by 3 succeeds; a missing
identifier and a non-owner caller fail as stated. -/
theorem registerAdmin_cases_witness :
    register_admin emptyState 0 99 3 = (emptyState, [], some Error.InvalidHash)
    ∧ register_admin st0demo 1 id0demo 3 = (st0demo, [], some Error.InvalidOwner)
    ∧ register_admin st0demo 0 id0demo 3 =
        ({ st0demo with metadata := metaInsert st0demo.metadata id0demo 3 none },
         [], none)
    ∧ (register_admin st0demo 0 id0demo 3).1.metadata id0demo 3 = some none
    ∧ (update_meta (register_admin st0demo 0 id0demo 3).1 3 id0demo
        (some [9])).2.2 = none :=
  ⟨(registerAdmin_cases emptyState 0 3 99).1 rfl,
   (registerAdmin_cases st0demo 1 3 id0demo).2.1
     { name := [1, 2, 3, 4], owner := 0 } (by decide) (by decide),
   ((registerAdmin_cases st0demo 0 3 id0demo).2.2
     { name := [1, 2, 3, 4], owner := 0 } (by decide) rfl).1,
   ((registerAdmin_cases st0demo 0 3 id0demo).2.2
     { name := [1, 2, 3, 4], owner := 0 } (by decide) rfl).2.1,
   ((registerAdmin_cases st0demo 0 3 id0demo).2.2
     { name := [1, 2, 3, 4], owner := 0 } (by decide) rfl).2.2 (some [9])⟩

/-- C6: Identifier derivation is deterministic and idempotent: two AddAsset
calls with the same (name, caller) both store their record at the single
identifier `derivedId hashOf name caller`; after the first call that key
holds the record, and the second call overwrites the first call's
AssetsStore entry at that same key (the whole post-store of the second call
is an overwrite of the first call's store at that key). -/
theorem addAsset_deterministic_id (hashOf : AssetItem → HashT)
    (st : RegistryState) (caller : AccountId) (name : List Byte)
    (m1 m2 : Option (List Byte)) (hshort : 3 < name.length)
    (hlong : name.length < 32) :
    (add_asset hashOf st caller name m1).1.assets (derivedId hashOf name caller)
      = some { name := name, owner := caller }
    ∧ (add_asset hashOf (add_asset hashOf st caller name m1).1 caller name m2).1.assets
        (derivedId hashOf name caller) = some { name := name, owner := caller }
    ∧ (add_asset hashOf (add_asset hashOf st caller name m1).1 caller name m2).1.assets
        = assetsInsert (add_asset hashOf st caller name m1).1.assets
            (derivedId hashOf name caller) { name := name, owner := caller } := by
  refine ⟨?_, ?_, ?_⟩ <;>
    simp [add_asset, derivedId, hshort, hlong, assetsInsert_same]

/-- C6 witness: two identical demo AddAsset calls (differing only in the
metadata argument) store at the same identifier, the second overwriting the
first. -/
theorem addAsset_deterministic_id_witness :
    (add_asset demoHash emptyState 0 [1, 2, 3, 4] none).1.assets
      (derivedId demoHash [1, 2, 3, 4] 0) = some { name := [1, 2, 3, 4], owner := 0 }
    ∧ (add_asset demoHash (add_asset demoHash emptyState 0 [1, 2, 3, 4] none).1 0
        [1, 2, 3, 4] (some [9])).1.assets (derivedId demoHash [1, 2, 3, 4] 0)
        = some { name := [1, 2, 3, 4], owner := 0 }
    ∧ (add_asset demoHash (add_asset demoHash emptyState 0 [1, 2, 3, 4] none).1 0
        [1, 2, 3, 4] (some [9])).1.assets
        = assetsInsert (add_asset demoHash emptyState 0 [1, 2, 3, 4] none).1.assets
            (derivedId demoHash [1, 2, 3, 4] 0) { name := [1, 2, 3, 4], owner := 0 } :=
  addAsset_deterministic_id demoHash emptyState 0 [1, 2, 3, 4] none (some [9])
    (by decide) (by decide)

/-- C7: A successful TransferAsset leaves the whole MetadataStore unchanged
(every slot keeps exactly its prior value) and leaves every AssetsStore
entry other than the transferred identifier unchanged. -/
theorem transferAsset_frame (st : RegistryState) (caller dest : AccountId)
    (id : HashT) (a : AssetItem) (ha : st.assets id = some a)
    (hown : a.owner = caller) :
    (transfer_asset st caller id dest).2.2 = none
    ∧ (transfer_asset st caller id dest).1.metadata = st.metadata
    ∧ (∀ h2, h2 ≠ id → (transfer_asset st caller id dest).1.assets h2 = st.assets h2) := by
  refine ⟨?_, ?_, fun h2 hne => ?_⟩
  · simp [transfer_asset, ha, hown]
  · simp [transfer_asset, ha, hown]
  · simp [transfer_asset, ha, hown, assetsInsert_other, hne]

/-- C7 witness: transferring the demo asset from account 0 to account 2
succeeds, leaves the MetadataStore function untouched, and leaves an
unrelated AssetsStore key untouched. -/
theorem transferAsset_frame_witness :
    (transfer_asset st0demo 0 id0demo 2).2.2 = none
    ∧ (transfer_asset st0demo 0 id0demo 2).1.metadata = st0demo.metadata
    ∧ (transfer_asset st0demo 0 id0demo 2).1.assets 99 = st0demo.assets 99 :=
  ⟨(transferAsset_frame st0demo 0 2 id0demo { name := [1, 2, 3, 4], owner := 0 }
      (by decide) rfl).1,
   (transferAsset_frame st0demo 0 2 id0demo { name := [1, 2, 3, 4], owner := 0 }
      (by decide) rfl).2.1,
   (transferAsset_frame st0demo 0 2 id0demo { name := [1, 2, 3, 4], owner := 0 }
      (by decide) rfl).2.2 99 (by decide)⟩

/-- C10: A successful TransferAsset grants no metadata authority to the
recipient: when the recipient had no MetadataStore slot at the identifier
before the call, every subsequent UpdateMetadata by the recipient fails with
InvalidOwner and changes nothing, until a slot is created — for instance,
the recipient (now the owner) can RegisterAdmin themselves, after which
their UpdateMetadata succeeds for every value. -/
theorem transfer_grants_no_metadata (st : RegistryState)
    (caller newOwner : AccountId) (id : HashT) (a : AssetItem)
    (ha : st.assets id = some a) (hown : a.owner = caller)
    (hnoslot : st.metadata id newOwner = none) :
    (transfer_asset st caller id newOwner).2.2 = none
    ∧ (∀ m, update_meta (transfer_asset st caller id newOwner).1 newOwner id m
        = ((transfer_asset st caller id newOwner).1, [], some Error.InvalidOwner))
    ∧ (register_admin (transfer_asset st caller id newOwner).1 newOwner id
        newOwner).2.2 = none
    ∧ (∀ m, (update_meta
        (register_admin (transfer_asset st caller id newOwner).1 newOwner id
          newOwner).1 newOwner id m).2.2 = none) := by
  refine ⟨?_, fun m => ?_, ?_, fun m => ?_⟩ <;>
    simp [transfer_asset, update_meta, register_admin, ha, hown,
      assetsInsert_same, metaInsert_same, hnoslot]

/-- C10 witness: after transferring the demo asset to account 5 (which holds
no slot), account 5's UpdateMetadata fails with InvalidOwner; after account
5 registers itself as admin, its UpdateMetadata succeeds. -/
theorem transfer_grants_no_metadata_witness :
    (transfer_asset st0demo 0 id0demo 5).2.2 = none
    ∧ update_meta (transfer_asset st0demo 0 id0demo 5).1 5 id0demo (some [9])
        = ((transfer_asset st0demo 0 id0demo 5).1, [], some Error.InvalidOwner)
    ∧ (register_admin (transfer_asset st0demo 0 id0demo 5).1 5 id0demo 5).2.2 = none
    ∧ (update_meta
        (register_admin (transfer_asset st0demo 0 id0demo 5).1 5 id0demo 5).1 5
        id0demo (some [9])).2.2 = none :=
  ⟨(transfer_grants_no_metadata st0demo 0 5 id0demo
      { name := [1, 2, 3, 4], owner := 0 } (by decide) rfl (by decide)).1,
   (transfer_grants_no_metadata st0demo 0 5 id0demo
      { name := [1, 2, 3, 4], owner := 0 } (by decide) rfl (by decide)).2.1 (some [9]),
   (transfer_grants_no_metadata st0demo 0 5 id0demo
      { name := [1, 2, 3, 4], owner := 0 } (by decide) rfl (by decide)).2.2.1,
   (transfer_grants_no_metadata st0demo 0 5 id0demo
      { name := [1, 2, 3, 4], owner := 0 } (by decide) rfl (by decide)).2.2.2 (some [9])⟩

/-- C8: Every failing call of any of the four dispatchables is
all-or-nothing: whenever a dispatched call returns an error, the post-state
equals the pre-state (both stores exactly as before) and no event is
deposited. -/
theorem dispatch_all_or_nothing (hashOf : AssetItem → HashT)
    (st : RegistryState) (c : Call) (e : Error)
    (he : (dispatch hashOf st c).2.2 = some e) :
    (dispatch hashOf st c).1 = st ∧ (dispatch hashOf st c).2.1 = [] := by
  revert he
  cases c with
  | addAsset caller n m =>
    by_cases h3 : n.length > 3 <;> by_cases h32 : n.length < 32 <;>
      simp [dispatch, add_asset, h3, h32]
  | transferAsset caller h d =>
    cases hst : st.assets h with
    | none => simp [dispatch, transfer_asset, hst]
    | some a =>
      by_cases ho : a.owner = caller <;> simp [dispatch, transfer_asset, hst, ho]
  | updateMeta caller h m =>
    by_cases hpres : (st.metadata h caller).isSome <;>
      simp [dispatch, update_meta, hpres]
  | registerAdmin caller h adm =>
    cases hst : st.assets h with
    | none => simp [dispatch, register_admin, hst]
    | some a =>
      by_cases ho : a.owner = caller <;> simp [dispatch, register_admin, hst, ho]

/-- C8 witness: a transfer of a nonexistent identifier errors and leaves the
empty state and empty event list unchanged. -/
theorem dispatch_all_or_nothing_witness :
    (dispatch demoHash emptyState (Call.transferAsset 0 99 1)).1 = emptyState
    ∧ (dispatch demoHash emptyState (Call.transferAsset 0 99 1)).2.1 = [] :=
  dispatch_all_or_nothing demoHash emptyState (Call.transferAsset 0 99 1)
    Error.InvalidHash rfl

theorem metaInsert_isSome_cases (m : HashT → AccountId → Option (Option (List Byte)))
    (k : HashT) (acc : AccountId) (v : Option (List Byte)) (h : HashT)
    (a : AccountId) (hs : (metaInsert m k acc v h a).isSome) :
    h = k ∨ (m h a).isSome := by
  by_cases hk : h = k
  · exact Or.inl hk
  · right
    simpa [metaInsert, hk] using hs

theorem dispatch_preserves_coupled (hashOf : AssetItem → HashT)
    (st : RegistryState) (c : Call) (hinv : MetadataCoupled st) :
    MetadataCoupled (dispatch hashOf st c).1 := by
  cases c with
  | addAsset caller n m =>
    by_cases h3 : n.length > 3 <;> by_cases h32 : n.length < 32 <;>
      simp [dispatch, add_asset, h3, h32]
    all_goals try exact hinv
    intro h a hs
    rcases metaInsert_isSome_cases _ _ _ _ _ _ hs with hk | hold
    · subst hk
      simp [assetsInsert_same]
    · exact assetsInsert_isSome _ _ _ _ (hinv h a hold)
  | transferAsset caller h d =>
    cases hst : st.assets h with
    | none => simpa [dispatch, transfer_asset, hst] using hinv
    | some a =>
      by_cases ho : a.owner = caller <;> simp [dispatch, transfer_asset, hst, ho]
      · intro h2 a2 hs
        exact assetsInsert_isSome _ _ _ _ (hinv h2 a2 hs)
      · exact hinv
  | updateMeta caller h m =>
    by_cases hpres : (st.metadata h caller).isSome <;>
      simp [dispatch, update_meta, hpres]
    · intro h2 a2 hs
      rcases metaInsert_isSome_cases _ _ _ _ _ _ hs with hk | hold
      · subst hk
        exact hinv _ caller hpres
      · exact hinv h2 a2 hold
    · exact hinv
  | registerAdmin caller h adm =>
    cases hst : st.assets h with
    | none => simpa [dispatch, register_admin, hst] using hinv
    | some a =>
      by_cases ho : a.owner = caller <;> simp [dispatch, register_admin, hst, ho]
      · intro h2 a2 hs
        rcases metaInsert_isSome_cases _ _ _ _ _ _ hs with hk | hold
        · subst hk
          simp [hst]
        · exact hinv h2 a2 hold
      · exact hinv

theorem runCalls_preserves_coupled (hashOf : AssetItem → HashT)
    (st : RegistryState) (cs : List Call) (hinv : MetadataCoupled st) :
    MetadataCoupled (runCalls hashOf st cs) := by
  induction cs generalizing st with
  | nil => exact hinv
  | cons c cs ih => exact ih (dispatch hashOf st c).1 (dispatch_preserves_coupled hashOf st c hinv)

/-- C9: Starting from the empty registry state, every sequence of the four
dispatchables reaches only states in which every identifier keying a
MetadataStore entry also keys an AssetsStore entry. -/
theorem reachable_metadata_coupled (hashOf : AssetItem → HashT)
    (cs : List Call) : MetadataCoupled (runCalls hashOf emptyState cs) :=
  runCalls_preserves_coupled hashOf emptyState cs
    (fun h a hs => by simp [emptyState] at hs)
